import Mathlib

set_option linter.unusedVariables false
set_option linter.unreachableTactic false
set_option linter.unusedTactic false

/-!
Shallow embedding of the rust-rtcp repository (src/lib.rs and src/packet.rs).

Bytes are modelled as `Nat` values below 256 inside `List Nat` buffers.
Rust operations that can panic (slice indexing, slicing past the end,
`unimplemented!()`) are modelled with `Option`: `none` is a panic.
A Rust function returning `Option<T>` is modelled as
`Option (Option T)`: the outer layer is panic/no-panic, the inner layer is
the returned Rust `Option`.
-/

namespace Rtcp

/-- Embeds `struct SSRC(u32)` of src/lib.rs. -/
structure SSRC where
  val : Nat
  deriving DecidableEq, Repr

/-- Embeds `struct SenderInfo` of src/lib.rs. -/
structure SenderInfo where
  ntp_ts     : Nat
  rtp_ts     : Nat
  pckt_count : Nat
  byte_count : Nat
  deriving DecidableEq, Repr

/-- Embeds `struct ReportBlock` of src/lib.rs. -/
structure ReportBlock where
  ssrc       : SSRC
  fract_lost : Nat
  cumul_lost : Nat
  ext_seq    : Nat
  jitter     : Nat
  lsr        : Nat
  dlsr       : Nat
  deriving DecidableEq, Repr

/-- Embeds `struct SdesChunk` of src/lib.rs (strings as byte lists). -/
structure SdesChunk where
  ssrc  : SSRC
  cname : Option (List Nat)
  name  : Option (List Nat)
  email : Option (List Nat)
  phone : Option (List Nat)
  loc   : Option (List Nat)
  tool  : Option (List Nat)
  note  : Option (List Nat)
  deriving DecidableEq, Repr

/-- Embeds `enum RtcpPacket` of src/lib.rs. -/
inductive RtcpPacket where
  | SR   : SSRC → List ReportBlock → SenderInfo → RtcpPacket
  | RR   : SSRC → List ReportBlock → RtcpPacket
  | SDES : List SdesChunk → RtcpPacket
  | BYE  : List SSRC → List Nat → RtcpPacket
  deriving DecidableEq, Repr

/-- Embeds `struct CompoundRtcpPacket` of src/lib.rs. -/
structure CompoundRtcpPacket where
  packets : List RtcpPacket
  deriving DecidableEq, Repr

/-- Embeds `fn parse_be_u32` of src/lib.rs, including its literal shift
amounts (`<< 24`, `<< 15`, `<< 8`, `<< 0`) and masks.  Each Rust index
`packet[offset + i]` panics when out of bounds, which is modelled by
an optional lookup and a `none` result. -/
def parse_be_u32 (packet : List Nat) (offset : Nat) : Option Nat :=
  match packet[offset + 0]?, packet[offset + 1]?,
        packet[offset + 2]?, packet[offset + 3]? with
  | some b0, some b1, some b2, some b3 =>
      some ((((b0 <<< 24) &&& 0xff000000) |||
             ((b1 <<< 15) &&& 0x00ff0000) |||
             ((b2 <<<  8) &&& 0x0000ff00) |||
             ((b3 <<<  0) &&& 0x000000ff)))
  | _, _, _, _ => none

/-- Embeds `fn parse_be_u64` of src/lib.rs, including its literal shift
amounts (`<< 46`, `<< 48`, `<< 40`, ..., `<< 0`) and masks. -/
def parse_be_u64 (packet : List Nat) (offset : Nat) : Option Nat :=
  match packet[offset + 0]?, packet[offset + 1]?,
        packet[offset + 2]?, packet[offset + 3]?,
        packet[offset + 4]?, packet[offset + 5]?,
        packet[offset + 6]?, packet[offset + 7]? with
  | some b0, some b1, some b2, some b3, some b4, some b5, some b6, some b7 =>
      some ((((b0 <<< 46) &&& 0xff00000000000000) |||
             ((b1 <<< 48) &&& 0x00ff000000000000) |||
             ((b2 <<< 40) &&& 0x0000ff0000000000) |||
             ((b3 <<< 32) &&& 0x000000ff00000000) |||
             ((b4 <<< 24) &&& 0x00000000ff000000) |||
             ((b5 <<< 16) &&& 0x0000000000ff0000) |||
             ((b6 <<<  8) &&& 0x000000000000ff00) |||
             ((b7 <<<  0) &&& 0x00000000000000ff)))
  | _, _, _, _, _, _, _, _ => none

/-- Embeds `fn parse_report_block` of src/lib.rs.  The field initializers run
in source order; any out-of-bounds read is a panic (`none`). -/
def parse_report_block (packet : List Nat) (offset : Nat) : Option ReportBlock := do
  let s  ← parse_be_u32 packet offset
  let fl ← packet[offset + 4]?
  let cl ← parse_be_u32 packet (offset + 4)
  let es ← parse_be_u32 packet (offset + 8)
  let ji ← parse_be_u32 packet (offset + 12)
  let ls ← parse_be_u32 packet (offset + 16)
  let dl ← parse_be_u32 packet (offset + 20)
  some { ssrc := ⟨s⟩, fract_lost := fl, cumul_lost := cl &&& 0x00ffffff,
         ext_seq := es, jitter := ji, lsr := ls, dlsr := dl }

/-- Embeds the `for i in 0..rc` report-block loops of `parse_sr` and
`parse_rr` in src/lib.rs.  In the source `i` is a `u8` and the block offset
is computed as `(base + (i*24)) as usize` in `u8` arithmetic, so both the
product and the sum wrap modulo 256 (release-build semantics). -/
def parse_report_blocks (packet : List Nat) (base : Nat) : Nat → Nat → Option (List ReportBlock)
  | _, 0 => some []
  | i, Nat.succ n => do
      let rr ← parse_report_block packet ((base + (i * 24) % 256) % 256)
      let rest ← parse_report_blocks packet base (i + 1) n
      some (rr :: rest)

/-- Embeds `fn parse_sr` of src/lib.rs.  The outer `Option` layer is
panic/no-panic; the inner layer is the Rust `Option<RtcpPacket>` result, so
`some none` is the early `return None` taken when `len < 7`. -/
def parse_sr (p : Bool) (rc : Nat) (len : Nat) (packet : List Nat) : Option (Option RtcpPacket) :=
  if len < 7 then
    some none
  else do
    let s   ← parse_be_u32 packet 4
    let ntp ← parse_be_u64 packet 8
    let rts ← parse_be_u32 packet 16
    let pc  ← parse_be_u32 packet 20
    let bc  ← parse_be_u32 packet 24
    let rr_list ← parse_report_blocks packet 28 0 rc
    some (some (RtcpPacket.SR ⟨s⟩ rr_list ⟨ntp, rts, pc, bc⟩))

/-- Embeds `fn parse_rr` of src/lib.rs. -/
def parse_rr (p : Bool) (rc : Nat) (len : Nat) (packet : List Nat) : Option (Option RtcpPacket) :=
  if len < 1 then
    some none
  else do
    let s ← parse_be_u32 packet 4
    let rr_list ← parse_report_blocks packet 8 0 rc
    some (some (RtcpPacket.RR ⟨s⟩ rr_list))

/-- Embeds the `for i in 0..rc` loop of `fn parse_sdes` in src/lib.rs: the
chunk offset is initialized to 4 and never advanced (a FIXME in the source),
so every iteration reads the SSRC at offset 4 and drops the chunk. -/
def parse_sdes_chunks (packet : List Nat) : Nat → Option Unit
  | 0 => some ()
  | Nat.succ n => do
      let s ← parse_be_u32 packet 4
      let chunk := SdesChunk.mk ⟨s⟩ none none none none none none none
      parse_sdes_chunks packet n

/-- Embeds `fn parse_sdes` of src/lib.rs: after the chunk loop the source
returns `None` (building the SDES packet is a FIXME). -/
def parse_sdes (p : Bool) (rc : Nat) (len : Nat) (packet : List Nat) : Option (Option RtcpPacket) := do
  let _ ← parse_sdes_chunks packet rc
  some none

/-- Embeds `fn parse_bye` of src/lib.rs, whose body is `unimplemented!()`,
a panic. -/
def parse_bye (p : Bool) (rc : Nat) (len : Nat) (packet : List Nat) : Option (Option RtcpPacket) :=
  none

/-- Embeds `fn parse_app` of src/lib.rs, whose body is `unimplemented!()`,
a panic. -/
def parse_app (p : Bool) (rc : Nat) (len : Nat) (packet : List Nat) : Option (Option RtcpPacket) :=
  none

/-- Result of running the compound-decoder loop of `fn parse_rtcp_packet`:
either the fuel bound was exhausted (never happens, see the termination
theorem), or the Rust code panicked, or it returned an
`Option<CompoundRtcpPacket>`. -/
inductive LoopRes where
  | outOfFuel : LoopRes
  | panic : LoopRes
  | ret : Option CompoundRtcpPacket → LoopRes
  deriving DecidableEq, Repr

/-- Embeds the `while offset != buflen` loop of `fn parse_rtcp_packet` in
src/lib.rs, with an explicit fuel argument for the iteration count.  Every
`return None`, the final fall-through `None`, and the `break` on an unknown
packet type (which also falls through to the final `None`) become
`LoopRes.ret none`.  Indexing the four header bytes, taking the sub-packet
slice `&buf[offset..offset + 4*(len+1)]` past `buf.len()`, and a panic
inside a dispatched parser become `LoopRes.panic`. -/
def parse_loop (buf : List Nat) (buflen : Nat) : Nat → Nat → LoopRes
  | 0, _ => LoopRes.outOfFuel
  | Nat.succ fuel, offset =>
    if offset = buflen then LoopRes.ret none
    else if buflen ≤ offset + 3 then LoopRes.ret none
    else
      match buf[offset + 0]?, buf[offset + 1]?,
            buf[offset + 2]?, buf[offset + 3]? with
      | some b0, some b1, some b2, some b3 =>
        let v := (b0 >>> 6) &&& 0x03
        let p := ((b0 >>> 5) &&& 0x01) == 1
        let rc := (b0 >>> 0) &&& 0x1f
        let pt := b1
        let len := ((b2 <<< 8) &&& 0xff00) ||| ((b3 <<< 0) &&& 0x0fff)
        if buflen < offset + 4 * len then LoopRes.ret none
        else if v ≠ 2 then LoopRes.ret none
        else if offset + 4 * (len + 1) ≤ buf.length then
          let packet := (buf.drop offset).take (4 * (len + 1))
          let parsed : Option (Option (Option RtcpPacket)) :=
            if pt = 200 then some (parse_sr p rc len packet)
            else if pt = 201 then some (parse_rr p rc len packet)
            else if pt = 202 then some (parse_sdes p rc len packet)
            else if pt = 203 then some (parse_bye p rc len packet)
            else if pt = 204 then some (parse_app p rc len packet)
            else none
          match parsed with
          | none => LoopRes.ret none
          | some none => LoopRes.panic
          | some (some _) => parse_loop buf buflen fuel (offset + (4 + 4 * len))
        else LoopRes.panic
      | _, _, _, _ => LoopRes.panic

/-- Embeds `fn parse_rtcp_packet` of src/lib.rs.  The `&mut [u8]` buffer is
modelled as state passed in and returned; the source never stores into
`buf`, so the loop reads a fixed buffer and the same buffer is returned.
The internal fuel `buflen + 1` is enough for the loop to run to completion
(see the termination theorem). -/
def parse_rtcp_packet (buf : List Nat) (buflen : Nat) : LoopRes × List Nat :=
  if buflen < 4 then (LoopRes.ret none, buf)
  else (parse_loop buf buflen (buflen + 1) 0, buf)

/-- Embeds the header-byte construction of src/packet.rs, which formats
`version` as 2 binary digits, `padding` as 1 and the count field as 5,
concatenates them and reparses the 8 digits as one byte.  For in-range
fields (`v < 4`, `p < 2`, `c < 32`), that equals this shift-and-or. -/
def headerByte (v p c : Nat) : Nat :=
  (v <<< 6) ||| (p <<< 5) ||| c

/-- Embeds `SSRC::to_bytes` of src/packet.rs, which formats the `u32` as 32
binary digits and reparses the four 8-digit groups: the four big-endian
bytes. -/
def SSRC.to_bytes (s : SSRC) : List Nat :=
  [(s.val >>> 24) &&& 0xff, (s.val >>> 16) &&& 0xff,
   (s.val >>> 8) &&& 0xff, s.val &&& 0xff]

/-- Embeds `struct SR` of src/packet.rs (the header fields only; the source
struct has no body fields). -/
structure SR where
  version : Nat
  padding : Nat
  rc      : Nat
  pt      : Nat
  length  : Nat
  deriving DecidableEq, Repr

/-- Embeds `SR::to_bytes` of src/packet.rs: the packed header byte, the
packet type, then the 16-bit length split into two big-endian bytes (the
source formats the `u16` as 16 binary digits and reparses the two 8-digit
groups). -/
def SR.to_bytes (s : SR) : List Nat :=
  [headerByte s.version s.padding s.rc, s.pt,
   (s.length >>> 8) &&& 0xff, s.length &&& 0xff]

/-- Embeds `struct APP` of src/packet.rs (name as its byte list). -/
structure APP where
  version : Nat
  padding : Nat
  subtype : Nat
  pt      : Nat
  length  : Nat
  ssrc    : SSRC
  name    : List Nat
  ext_len : Nat
  ext     : List Nat
  deriving DecidableEq, Repr

/-- Embeds `APP::to_bytes` of src/packet.rs: packed header byte, packet
type, two length bytes, the four SSRC bytes, the name bytes, then the four
big-endian bytes of `ext_len` (formatted as 32 binary digits and reparsed
in the source), then the extension payload. -/
def APP.to_bytes (a : APP) : List Nat :=
  headerByte a.version a.padding a.subtype :: a.pt ::
    ((a.length >>> 8) &&& 0xff) :: (a.length &&& 0xff) ::
    (a.ssrc.to_bytes ++ a.name ++
     [(a.ext_len >>> 24) &&& 0xff, (a.ext_len >>> 16) &&& 0xff,
      (a.ext_len >>> 8) &&& 0xff, a.ext_len &&& 0xff] ++ a.ext)

/-- Modelled from the spec: no source-state tracker exists under src (no
jitter code appears in src/lib.rs or src/packet.rs); this models the
per-source state named in section 4.6 of the spec, keeping the previous
arrival time, the previous RTP timestamp and the smoothed jitter
estimate. -/
structure SourceState where
  arrival : Int
  rtp_ts  : Int
  jitter  : Int
  deriving DecidableEq, Repr

/-- Modelled from the spec: on each received RTP packet after the first,
with arrival time `a` and RTP timestamp `r`, maintain
`D = (A2 - A1) - (R2 - R1)` and update `J += (|D| - J) / 16`
(RFC 3550 Appendix A.8; integer division truncating toward zero as in the
reference C code of the RFC). -/
def jitter_receive (s : SourceState) (a r : Int) : SourceState :=
  let d : Int := (a - s.arrival) - (r - s.rtp_ts)
  { arrival := a, rtp_ts := r,
    jitter := s.jitter + Int.tdiv ((d.natAbs : Int) - s.jitter) 16 }

/-! Helper lemmas (shared, not claim theorems). -/

/-- A successful list lookup implies the index is in range. -/
lemma getElem?_some_lt {l : List Nat} {n b : Nat} (h : l[n]? = some b) :
    n < l.length := by
  rcases List.getElem?_eq_some.mp h with ⟨h1, _⟩
  exact h1

/-- The 32-bit reader panics exactly when the four bytes do not fit. -/
lemma parse_be_u32_none_iff (packet : List Nat) (offset : Nat) :
    parse_be_u32 packet offset = none ↔ packet.length < offset + 4 := by
  constructor
  · intro h
    by_contra hlt
    push_neg at hlt
    have e0 := List.getElem?_eq_getElem (l := packet) (n := offset + 0) (by omega)
    have e1 := List.getElem?_eq_getElem (l := packet) (n := offset + 1) (by omega)
    have e2 := List.getElem?_eq_getElem (l := packet) (n := offset + 2) (by omega)
    have e3 := List.getElem?_eq_getElem (l := packet) (n := offset + 3) (by omega)
    simp only [parse_be_u32, e0, e1, e2, e3] at h
    exact Option.noConfusion h
  · intro hlt
    have h3 : packet[offset + 3]? = none := List.getElem?_eq_none (by omega)
    unfold parse_be_u32
    split
    · next b0 b1 b2 b3 he0 he1 he2 he3 =>
        rw [h3] at he3
        exact Option.noConfusion he3
    · rfl

/-- The 64-bit reader panics exactly when the eight bytes do not fit. -/
lemma parse_be_u64_none_iff (packet : List Nat) (offset : Nat) :
    parse_be_u64 packet offset = none ↔ packet.length < offset + 8 := by
  constructor
  · intro h
    by_contra hlt
    push_neg at hlt
    have e0 := List.getElem?_eq_getElem (l := packet) (n := offset + 0) (by omega)
    have e1 := List.getElem?_eq_getElem (l := packet) (n := offset + 1) (by omega)
    have e2 := List.getElem?_eq_getElem (l := packet) (n := offset + 2) (by omega)
    have e3 := List.getElem?_eq_getElem (l := packet) (n := offset + 3) (by omega)
    have e4 := List.getElem?_eq_getElem (l := packet) (n := offset + 4) (by omega)
    have e5 := List.getElem?_eq_getElem (l := packet) (n := offset + 5) (by omega)
    have e6 := List.getElem?_eq_getElem (l := packet) (n := offset + 6) (by omega)
    have e7 := List.getElem?_eq_getElem (l := packet) (n := offset + 7) (by omega)
    simp only [parse_be_u64, e0, e1, e2, e3, e4, e5, e6, e7] at h
    exact Option.noConfusion h
  · intro hlt
    have h7 : packet[offset + 7]? = none := List.getElem?_eq_none (by omega)
    unfold parse_be_u64
    split
    · next b0 b1 b2 b3 b4 b5 b6 b7 he0 he1 he2 he3 he4 he5 he6 he7 =>
        rw [h7] at he7
        exact Option.noConfusion he7
    · rfl

/-- With fuel exceeding a quarter of the remaining byte count, the loop
never runs out: each iteration either returns or advances the offset by at
least 4 bytes. -/
lemma parse_loop_enough_fuel (buf : List Nat) (buflen : Nat) :
    ∀ (f offset : Nat), buflen ≤ offset + 4 * f + 3 →
      parse_loop buf buflen (f + 1) offset ≠ LoopRes.outOfFuel := by
  intro f
  induction f with
  | zero =>
    intro offset h
    rw [parse_loop.eq_2]
    repeat' split
    all_goals try dsimp only
    repeat' split
    all_goals first
      | decide
      | (exfalso ; omega)
  | succ f ih =>
    intro offset h
    rw [parse_loop.eq_2]
    repeat' split
    all_goals try dsimp only
    repeat' split
    all_goals first
      | decide
      | exact ih _ (by omega)

/-- The loop never produces a compound packet: every run ends in fuel
exhaustion, a panic, or the final fall-through `None` of the source (the
parsed sub-packets are dropped; appending them is a FIXME in the source). -/
lemma parse_loop_never_some (buf : List Nat) (buflen : Nat) :
    ∀ (fuel offset : Nat), parse_loop buf buflen fuel offset = LoopRes.outOfFuel ∨
      parse_loop buf buflen fuel offset = LoopRes.panic ∨
      parse_loop buf buflen fuel offset = LoopRes.ret none := by
  intro fuel
  induction fuel with
  | zero =>
    intro offset
    left
    rfl
  | succ f ih =>
    intro offset
    rw [parse_loop.eq_2]
    repeat' split
    all_goals try dsimp only
    repeat' split
    all_goals first
      | exact ih _
      | (left ; rfl)
      | (right ; left ; rfl)
      | (right ; right ; rfl)

/-!  Claim theorems. -/

/-- C1: the claim states that `parse_be_u32` and `parse_be_u64` return the
big-endian interpretation of the bytes at the offset.  They do not: the
byte at `offset + 1` of the 32-bit reader is shifted by 15 instead of 16,
so `[0, 1, 0, 0]` decodes to 0 instead of 65536, and the byte at `offset`
of the 64-bit reader is shifted by 46 instead of 56, so the mask wipes it
out and `[255, 0, ..., 0]` decodes to 0 instead of `255 * 2 ^ 56`. -/
theorem c1_readers_not_big_endian :
    parse_be_u32 [0, 1, 0, 0] 0 = some 0 ∧
    parse_be_u32 [0, 1, 0, 0] 0 ≠ some 65536 ∧
    parse_be_u64 [255, 0, 0, 0, 0, 0, 0, 0] 0 = some 0 ∧
    parse_be_u64 [255, 0, 0, 0, 0, 0, 0, 0] 0 ≠ some 0xff00000000000000 := by
  decide

/-- C2: the claim states `decode_compound(encode_compound(c)) == c`.  The
decoder never returns a compound packet (assembling and returning it are
FIXMEs in the source), so decoding the serialized minimal SR header yields
the Rust `None`, not the packet: the round trip fails. -/
theorem c2_roundtrip_fails :
    SR.to_bytes ⟨2, 0, 0, 200, 6⟩ = [128, 200, 0, 6] ∧
    (parse_rtcp_packet [128, 200, 0, 6] 4).1 = LoopRes.ret none := by
  decide

/-- C3: the claim states that a header whose declared extent
`4 * (length + 1)` exceeds the remaining buffer makes the decode fail with
a length error and that the decoder never reads past the buffer end.  The
guard in the source checks `offset + 4 * len > buflen` but the slice taken
afterwards is `4 * (len + 1)` bytes long, so the 4-byte buffer
`[128, 200, 0, 1]` (a version-2 header with length word 1) passes the
guard and the slice `buf[0..8]` panics instead of returning an error. -/
theorem c3_length_guard_off_by_one :
    (parse_rtcp_packet [128, 200, 0, 1] 4).1 = LoopRes.panic := by
  decide

/-- C4 counterexample: the claim states that a compound buffer holding one
SR, one packet of unrecognized type 250 and one RR decodes to the
2-element sequence (SR, RR).  It does not: the decode of exactly that
buffer returns the Rust `None` (no sequence at all), because the source
breaks out of the loop at the unknown type and never assembles a
result. -/
theorem c4_unknown_type_aborts :
    (parse_rtcp_packet
      ([128, 200, 0, 6] ++ List.replicate 24 0 ++ [128, 250, 0, 0] ++
       [128, 201, 0, 1] ++ List.replicate 4 0) 40).1 = LoopRes.ret none := by
  decide

/-- C4 amended: on an unrecognized packet-type code the decoder breaks out
of its loop without decoding the following packets, and the decode returns
the Rust `None` on every input on which it does not panic — it never
returns a sequence of packets; in particular the SR / unknown(250) / RR
buffer decodes to `None`, not to a 2-element sequence. -/
theorem c4_amended_break_and_none :
    (∀ (buf : List Nat) (buflen : Nat),
      (parse_rtcp_packet buf buflen).1 = LoopRes.panic ∨
      (parse_rtcp_packet buf buflen).1 = LoopRes.ret none ∨
      (parse_rtcp_packet buf buflen).1 = LoopRes.outOfFuel) ∧
    (parse_rtcp_packet
      ([128, 200, 0, 6] ++ List.replicate 24 0 ++ [128, 250, 0, 0] ++
       [128, 201, 0, 1] ++ List.replicate 4 0) 40).1 ≠
        LoopRes.ret (some ⟨[RtcpPacket.SR ⟨0⟩ [] ⟨0, 0, 0, 0⟩,
                            RtcpPacket.RR ⟨0⟩ []]⟩) := by
  constructor
  · intro buf buflen
    unfold parse_rtcp_packet
    split
    · right ; left ; rfl
    · rcases parse_loop_never_some buf buflen (buflen + 1) 0 with h | h | h
      · right ; right ; exact h
      · left ; exact h
      · right ; left ; exact h
  · decide

/-- C5: the claim states that SR decoding succeeds exactly when
`length = 6 + 6 * RC`, in particular that an SR with `RC = 0` and length
word 6 is accepted.  The source only checks `len < 7`: the valid minimal
SR (`RC = 0`, length 6, a 28-byte packet) is rejected as too short, while
an SR with `RC = 0` and the mismatched length word 7 is accepted. -/
theorem c5_sr_length_check_wrong :
    parse_sr false 0 6 (List.replicate 28 0) = some none ∧
    parse_sr false 0 7 (List.replicate 32 0) =
      some (some (RtcpPacket.SR ⟨0⟩ [] ⟨0, 0, 0, 0⟩)) := by
  decide

/-- C6: each big-endian read primitive fails (as a recoverable `none`, the
embedding of the Rust bounds panic) exactly when `offset + width` exceeds
the buffer length, and the failure branch is unreachable whenever the
bytes fit: no read past the end of the buffer. -/
theorem c6_reader_bounds :
    ∀ (packet : List Nat) (offset : Nat),
      (parse_be_u32 packet offset = none ↔ packet.length < offset + 4) ∧
      (parse_be_u64 packet offset = none ↔ packet.length < offset + 8) :=
  fun packet offset =>
    ⟨parse_be_u32_none_iff packet offset, parse_be_u64_none_iff packet offset⟩

/-- C7 counterexample: the claim states that APP serialization emits the
4-byte header, the SSRC, the 4-byte name and then the payload directly,
with no separate payload-length field in the body.  It does not: for a
concrete APP packet the emitted bytes insert the four big-endian bytes of
`ext_len` between the name and the payload. -/
theorem c7_app_no_length_field_false :
    APP.to_bytes ⟨2, 0, 0, 204, 4, ⟨1⟩, [78, 65, 77, 69], 0, [7]⟩ ≠
      [128, 204, 0, 4] ++ SSRC.to_bytes ⟨1⟩ ++ [78, 65, 77, 69] ++ [7] := by
  decide

/-- C7 amended: APP serialization emits the 4-byte header, the 4-byte
SSRC, the name bytes, then a 4-byte big-endian `ext_len` field, then the
payload bytes, for a total of `12 + name.length + ext.length` bytes. -/
theorem c7_app_layout :
    ∀ (a : APP),
      APP.to_bytes a =
        [headerByte a.version a.padding a.subtype, a.pt,
         (a.length >>> 8) &&& 0xff, a.length &&& 0xff] ++
        a.ssrc.to_bytes ++ a.name ++
        [(a.ext_len >>> 24) &&& 0xff, (a.ext_len >>> 16) &&& 0xff,
         (a.ext_len >>> 8) &&& 0xff, a.ext_len &&& 0xff] ++ a.ext ∧
      (APP.to_bytes a).length = 12 + a.name.length + a.ext.length := by
  intro a
  constructor
  · simp [APP.to_bytes]
  · simp [APP.to_bytes, SSRC.to_bytes]
    omega

/-- C8: on each packet after the first the tracker updates the smoothed
jitter estimate by exactly `J := J + (|D| - J) / 16` with
`D = (A2 - A1) - (R2 - R1)`, and feeding transit deltas 0 then 16 to a
fresh tracker yields `J = 1`. -/
theorem c8_jitter_rfc_update :
    (∀ (s : SourceState) (a r : Int),
      (jitter_receive s a r).jitter =
        s.jitter +
          Int.tdiv ((((a - s.arrival) - (r - s.rtp_ts)).natAbs : Int) - s.jitter) 16) ∧
    (jitter_receive (jitter_receive ⟨0, 0, 0⟩ 10 10) 26 10).jitter = 1 :=
  ⟨fun s a r => rfl, by decide⟩

/-- C9: the compound decoder is pure: it returns its buffer unchanged (the
source never stores into the mutable slice) and equal inputs give equal
results. -/
theorem c9_decoder_pure :
    (∀ (buf : List Nat) (buflen : Nat), (parse_rtcp_packet buf buflen).2 = buf) ∧
    (∀ (b1 b2 : List Nat) (n1 n2 : Nat), b1 = b2 → n1 = n2 →
      parse_rtcp_packet b1 n1 = parse_rtcp_packet b2 n2) := by
  constructor
  · intro buf buflen
    unfold parse_rtcp_packet
    split <;> rfl
  · intro b1 b2 n1 n2 h1 h2
    rw [h1, h2]

/-- C9 witness: the purity theorem applied to a concrete buffer. -/
theorem c9_decoder_pure_witness :
    (parse_rtcp_packet [128, 200, 0, 6] 4).2 = [128, 200, 0, 6] ∧
    parse_rtcp_packet [128, 200, 0, 6] 4 = parse_rtcp_packet [128, 200, 0, 6] 4 :=
  ⟨c9_decoder_pure.1 [128, 200, 0, 6] 4,
   c9_decoder_pure.2 [128, 200, 0, 6] [128, 200, 0, 6] 4 4 rfl rfl⟩

/-- C10: the compound-decoder loop terminates on every input: with the
internal fuel bound of one iteration per buffer byte plus one, the fuel is
never exhausted, because every iteration either returns or advances the
offset by at least 4 bytes. -/
theorem c10_decoder_terminates :
    ∀ (buf : List Nat) (buflen : Nat), buflen ≤ buf.length →
      (parse_rtcp_packet buf buflen).1 ≠ LoopRes.outOfFuel := by
  intro buf buflen hlen
  unfold parse_rtcp_packet
  split
  · simp
  · exact parse_loop_enough_fuel buf buflen buflen 0 (by omega)

/-- C10 witness: the termination theorem applied to a concrete buffer. -/
theorem c10_decoder_terminates_witness :
    (parse_rtcp_packet [128, 201, 0, 0] 4).1 ≠ LoopRes.outOfFuel :=
  c10_decoder_terminates [128, 201, 0, 0] 4 (by decide)

end Rtcp
